import Mathlib

set_option maxRecDepth 3000
set_option maxHeartbeats 64000000

/-!
Verification of the sentiment-engine trading core.

Shallow embedding of `src/core/backtesting.py`, `src/core/signal_generator.py`
and the constants of `src/config.py`.  Python floats are modelled as exact
rationals (`ℚ`), `datetime`/`timedelta` values as rational seconds, Python
dicts as association lists in insertion order, and `Optional[float]` as
`Option ℚ`.  Division by zero yields `0` in `ℚ`; every verified statement
either avoids such a state or carries an explicit hypothesis ruling it out.
-/

/-- Python truthiness of an `Optional[float]`: `None` and `0.0` are falsy. -/
def truthy : Option ℚ → Bool
  | none => false
  | some x => decide (x ≠ 0)

/-- Model of `np.mean` on a list of rationals.  All call sites in the source
only evaluate it on non-empty lists (for `[]` this model returns `0`). -/
def listMean (xs : List ℚ) : ℚ := xs.sum / (xs.length : ℚ)

/-- Model of Python `max(xs, default=d)`. -/
def listMaxD (xs : List ℚ) (d : ℚ) : ℚ :=
  match xs with
  | [] => d
  | x :: rest => rest.foldl max x

/-- Model of Python `min(xs, default=d)`. -/
def listMinD (xs : List ℚ) (d : ℚ) : ℚ :=
  match xs with
  | [] => d
  | x :: rest => rest.foldl min x

/-- Population variance, the square of `np.std` (ddof = 0). -/
def listVariance (xs : List ℚ) : ℚ :=
  listMean (xs.map (fun x => (x - listMean xs) ^ 2))

/-- Rational square root used to model `np.sqrt`/`np.std`: exact when the
argument is the square of a rational, `0` otherwise.  No verified claim
depends on the value taken on the inexact branch; branch conditions that the
source states on `np.std(...) > 0` are modelled by the exact equivalent
`variance > 0`. -/
def ratSqrt (q : ℚ) : ℚ :=
  if q < 0 then 0
  else
    let n := Nat.sqrt q.num.toNat
    let d := Nat.sqrt q.den
    if n * n = q.num.toNat ∧ d * d = q.den then (n : ℚ) / (d : ℚ) else 0

/-- SignalType of `core/data_models.py`. -/
inductive SignalType where
  | BUY
  | SELL
  | HOLD
deriving DecidableEq

/-- DataSource of `core/data_models.py`. -/
inductive DataSource where
  | TWITTER
  | REDDIT
  | NEWS
  | FINANCIAL
deriving DecidableEq

/-- TradingSignal of `core/data_models.py`.  The `supporting_data` field (a
`Dict[str, Any]` audit payload never read by the core) is omitted. -/
structure TradingSignal where
  asset : String
  timestamp : ℚ
  signal_type : SignalType
  confidence : ℚ
  strength : ℚ
  target_price : Option ℚ := none
  stop_loss : Option ℚ := none
  take_profit : Option ℚ := none
  risk_reward_ratio : Option ℚ := none
  position_size : ℚ := 0
  reasoning : String := ""
deriving DecidableEq

/-- MarketData of `core/data_models.py` (the `additional_metrics` dict, always
empty in the backtest, is omitted). -/
structure MarketData where
  symbol : String
  timestamp : ℚ
  price : ℚ
  volume : ℚ
  change_24h : ℚ
  market_cap : Option ℚ := none
deriving DecidableEq

/-- Position of `core/backtesting.py`. -/
structure Position where
  symbol : String
  signal : TradingSignal
  entry_price : ℚ
  entry_time : ℚ
  exit_price : Option ℚ := none
  exit_time : Option ℚ := none
  pnl : ℚ := 0
  is_closed : Bool := false
  max_favorable_excursion : ℚ := 0
  max_adverse_excursion : ℚ := 0
deriving DecidableEq

/-- Position.__init__ : a freshly opened position. -/
def Position.new (symbol : String) (signal : TradingSignal) (entry_price : ℚ) : Position :=
  { symbol := symbol, signal := signal, entry_price := entry_price,
    entry_time := signal.timestamp }

/-- Position._check_exit_conditions.  The 24h maximum holding period is
86400 seconds; the stop-loss / take-profit levels are guarded by Python
truthiness of the `Optional[float]` fields. -/
def Position.check_exit_conditions (p : Position) (current_price current_time : ℚ) :
    Bool × String :=
  if current_time - p.entry_time > 86400 then (true, "time_exit")
  else if truthy p.signal.stop_loss = true ∧
      ((p.signal.signal_type = SignalType.BUY ∧ current_price ≤ p.signal.stop_loss.getD 0) ∨
       (p.signal.signal_type = SignalType.SELL ∧ current_price ≥ p.signal.stop_loss.getD 0)) then
    (true, "stop_loss")
  else if truthy p.signal.take_profit = true ∧
      ((p.signal.signal_type = SignalType.BUY ∧ current_price ≥ p.signal.take_profit.getD 0) ∨
       (p.signal.signal_type = SignalType.SELL ∧ current_price ≤ p.signal.take_profit.getD 0)) then
    (true, "take_profit")
  else (false, "")

/-- Position.close_position. -/
def Position.close_position (p : Position) (exit_price exit_time : ℚ) (_reason : String) :
    Position :=
  let raw_pnl :=
    if p.signal.signal_type = SignalType.BUY then
      (exit_price - p.entry_price) / p.entry_price
    else
      (p.entry_price - exit_price) / p.entry_price
  { p with exit_price := some exit_price, exit_time := some exit_time,
           is_closed := true, pnl := raw_pnl * p.signal.position_size }

/-- Excursion-tracking block of Position.update_price. -/
def Position.track_excursions (p : Position) (current_price : ℚ) : Position :=
  if p.signal.signal_type = SignalType.BUY then
    let excursion := (current_price - p.entry_price) / p.entry_price
    if current_price > p.entry_price then
      { p with max_favorable_excursion := max p.max_favorable_excursion excursion }
    else
      { p with max_adverse_excursion := min p.max_adverse_excursion excursion }
  else
    let excursion := (p.entry_price - current_price) / p.entry_price
    if current_price < p.entry_price then
      { p with max_favorable_excursion := max p.max_favorable_excursion excursion }
    else
      { p with max_adverse_excursion := min p.max_adverse_excursion excursion }

/-- Position.update_price. -/
def Position.update_price (p : Position) (current_price current_time : ℚ) : Position :=
  if p.is_closed = true then p
  else
    let p1 := p.track_excursions current_price
    let ec := p1.check_exit_conditions current_price current_time
    if ec.1 = true then p1.close_position current_price current_time ec.2 else p1

/-- One point of the Portfolio equity curve. -/
structure EquityPoint where
  timestamp : ℚ
  equity : ℚ
  drawdown : ℚ
deriving DecidableEq

/-- Portfolio of `core/backtesting.py`. -/
structure Portfolio where
  initial_capital : ℚ
  current_capital : ℚ
  positions : List Position
  closed_positions : List Position
  equity_curve : List EquityPoint
  daily_returns : List ℚ
  max_drawdown : ℚ
  peak_equity : ℚ
deriving DecidableEq

/-- Portfolio.__init__. -/
def Portfolio.init (initial_capital : ℚ) : Portfolio :=
  { initial_capital := initial_capital, current_capital := initial_capital,
    positions := [], closed_positions := [], equity_curve := [],
    daily_returns := [], max_drawdown := 0, peak_equity := initial_capital }

/-- Portfolio._get_open_position. -/
def Portfolio.get_open_position (pf : Portfolio) (symbol : String) : Option Position :=
  pf.positions.find? (fun p => p.symbol == symbol && !p.is_closed)

/-- Portfolio._settle_closed_position, bookkeeping part.  In the source the
Position object has already been mutated to its closed state while still
referenced from `self.positions`, and `self.positions.remove(position)` drops
that very object; here each call site removes the stale open value (or simply
does not re-add the updated one) and this function applies the PnL to capital
and records the closed trade and its return. -/
def Portfolio.settle_closed_position (pf : Portfolio) (position : Position) : Portfolio :=
  let pnl_amount := position.pnl * pf.current_capital
  let new_capital := pf.current_capital + pnl_amount
  { pf with current_capital := new_capital,
            closed_positions := pf.closed_positions ++ [position],
            daily_returns := pf.daily_returns ++ [pnl_amount / new_capital] }

/-- Portfolio.add_signal. -/
def Portfolio.add_signal (pf : Portfolio) (signal : TradingSignal) (current_price : ℚ) :
    Portfolio × Bool :=
  if signal.signal_type = SignalType.HOLD then (pf, false)
  else
    let pf1 :=
      match pf.get_open_position signal.asset with
      | some existing_position =>
        let closed := existing_position.close_position current_price signal.timestamp "new_signal"
        Portfolio.settle_closed_position
          { pf with positions := pf.positions.erase existing_position } closed
      | none => pf
    let position_value := pf1.current_capital * signal.position_size
    if position_value > pf1.current_capital * (95/100) then (pf1, false)
    else
      ({ pf1 with positions :=
          pf1.positions ++ [Position.new signal.asset signal current_price] }, true)

/-- Portfolio._calculate_current_equity.  The market snapshot dict is modelled
as a list of MarketData looked up by symbol. -/
def Portfolio.calculate_current_equity (pf : Portfolio) (market_data : List MarketData) : ℚ :=
  pf.positions.foldl
    (fun equity position =>
      if position.is_closed = false then
        match market_data.find? (fun d => d.symbol == position.symbol) with
        | some d =>
          let unrealized_pnl :=
            if position.signal.signal_type = SignalType.BUY then
              (d.price - position.entry_price) / position.entry_price
            else
              (position.entry_price - d.price) / position.entry_price
          equity + unrealized_pnl * position.signal.position_size * pf.current_capital
        | none => equity
      else equity)
    pf.current_capital

/-- Loop of Portfolio.update_positions: the source iterates over a copy of
`self.positions`, mutating each matched Position in place and removing the
newly closed ones; modelled by rebuilding the positions list in order. -/
def Portfolio.update_positions_loop (md : List MarketData) :
    Portfolio → List Position → Portfolio
  | pf, [] => pf
  | pf, p :: rest =>
    match md.find? (fun d => d.symbol == p.symbol) with
    | none =>
      Portfolio.update_positions_loop md { pf with positions := pf.positions ++ [p] } rest
    | some d =>
      let p2 := p.update_price d.price d.timestamp
      if p2.is_closed = true then
        Portfolio.update_positions_loop md (pf.settle_closed_position p2) rest
      else
        Portfolio.update_positions_loop md { pf with positions := pf.positions ++ [p2] } rest

/-- Portfolio.update_positions.  The equity-curve timestamp is
`datetime.now()` in the source; the wall clock is passed in as `now`. -/
def Portfolio.update_positions (pf : Portfolio) (md : List MarketData) (now : ℚ) : Portfolio :=
  let pf1 := Portfolio.update_positions_loop md { pf with positions := [] } pf.positions
  let current_equity := pf1.calculate_current_equity md
  let point : EquityPoint :=
    { timestamp := now, equity := current_equity,
      drawdown := (pf1.peak_equity - current_equity) / pf1.peak_equity }
  let pf2 := { pf1 with equity_curve := pf1.equity_curve ++ [point] }
  if current_equity > pf2.peak_equity then
    { pf2 with peak_equity := current_equity }
  else
    let current_drawdown := (pf2.peak_equity - current_equity) / pf2.peak_equity
    { pf2 with max_drawdown := max pf2.max_drawdown current_drawdown }

/-- Entry of SentimentAggregator.sentiment_data: the dict appended per
observation by add_sentiment_data in `core/signal_generator.py`. -/
structure SentimentItem where
  timestamp : ℚ
  sentiment_score : ℚ
  confidence : ℚ
  relevance : ℚ
  source : DataSource
  volume_proxy : ℚ
deriving DecidableEq

/-- Per-source accumulator of the sources_breakdown dict: insertion-ordered
association list of (source, count, avg_sentiment). -/
def bump_source (acc : List (DataSource × ℕ × ℚ)) (source : DataSource) (score : ℚ) :
    List (DataSource × ℕ × ℚ) :=
  match acc with
  | [] => [(source, 1, score)]
  | (s, c, a) :: rest =>
    if s = source then (s, c + 1, a + score) :: rest
    else (s, c, a) :: bump_source rest source score

/-- AggregatedSentiment of `core/data_models.py`. -/
structure AggregatedSentiment where
  asset : String
  timestamp : ℚ
  window_size : ℚ
  total_mentions : ℕ
  sentiment_score : ℚ
  confidence : ℚ
  volume_weighted_score : ℚ
  momentum : ℚ
  sources_breakdown : List (DataSource × ℕ × ℚ)
deriving DecidableEq

/-- Per-asset history lookup in SentimentAggregator.sentiment_data (modelled
as an insertion-ordered association list; `asset not in self.sentiment_data`
is lookup failure). -/
def lookup_history (sentiment_data : List (String × List SentimentItem)) (asset : String) :
    Option (List SentimentItem) :=
  (sentiment_data.find? (fun e => e.1 == asset)).map (fun e => e.2)

/-- SentimentAggregator.get_aggregated_sentiment.  `now` is `datetime.now()`
in the source, made an explicit parameter here. -/
def get_aggregated_sentiment (sentiment_data : List (String × List SentimentItem))
    (asset : String) (window_size : ℚ) (now : ℚ) : Option AggregatedSentiment :=
  match lookup_history sentiment_data asset with
  | none => none
  | some history =>
    let cutoff_time := now - window_size
    let recent_data := history.filter (fun item => item.timestamp ≥ cutoff_time)
    if recent_data = [] then none
    else
      let sentiment_scores := recent_data.map (fun item => item.sentiment_score)
      let confidences := recent_data.map (fun item => item.confidence)
      let volumes := recent_data.map (fun item => item.volume_proxy)
      let total_volume := volumes.sum
      let volume_weighted_score :=
        if total_volume > 0 then
          ((List.zip sentiment_scores volumes).map (fun sv => sv.1 * sv.2)).sum / total_volume
        else listMean sentiment_scores
      let mid_point := recent_data.length / 2
      let momentum :=
        if mid_point > 0 then
          listMean (sentiment_scores.drop mid_point) - listMean (sentiment_scores.take mid_point)
        else 0
      let raw_breakdown := recent_data.foldl
        (fun acc item => bump_source acc item.source item.sentiment_score) []
      let sources_breakdown := raw_breakdown.map
        (fun e => (e.1, e.2.1, if e.2.1 > 0 then e.2.2 / (e.2.1 : ℚ) else e.2.2))
      some
        { asset := asset, timestamp := now, window_size := window_size,
          total_mentions := recent_data.length,
          sentiment_score := listMean sentiment_scores,
          confidence := listMean confidences,
          volume_weighted_score := volume_weighted_score,
          momentum := momentum,
          sources_breakdown := sources_breakdown }

/-- Fear and Greed Index thresholds of TradingConfig in `src/config.py`. -/
def EXTREME_FEAR_THRESHOLD : ℚ := 25

/-- Fear threshold of TradingConfig. -/
def FEAR_THRESHOLD : ℚ := 45

/-- Neutral threshold of TradingConfig. -/
def NEUTRAL_THRESHOLD : ℚ := 55

/-- Greed threshold of TradingConfig. -/
def GREED_THRESHOLD : ℚ := 75

/-- Extreme-greed threshold of TradingConfig. -/
def EXTREME_GREED_THRESHOLD : ℚ := 90

/-- Maximum position size fraction of TradingConfig. -/
def MAX_POSITION_SIZE : ℚ := 1/10

/-- FearGreedIndex of `core/data_models.py`. -/
structure FearGreedIndex where
  timestamp : ℚ
  overall_score : ℚ
  sentiment_component : ℚ
  momentum_component : ℚ
  volume_component : ℚ
  correlation_component : ℚ
  classification : String
deriving DecidableEq

/-- FearGreedCalculator._calculate_sentiment_component. -/
def calculate_sentiment_component (sentiments : List (String × AggregatedSentiment)) : ℚ :=
  if sentiments = [] then 0
  else
    let pairs := sentiments.map (fun e =>
      let weight := (e.2.total_mentions : ℚ) * e.2.confidence
      (e.2.volume_weighted_score * weight, weight))
    let weighted_sentiment := (pairs.map (fun x => x.1)).sum
    let total_weight := (pairs.map (fun x => x.2)).sum
    if total_weight > 0 then weighted_sentiment / total_weight else 0

/-- FearGreedCalculator._calculate_momentum_component. -/
def calculate_momentum_component (sentiments : List (String × AggregatedSentiment)) : ℚ :=
  if sentiments = [] then 0
  else listMean (sentiments.map (fun e => e.2.momentum))

/-- FearGreedCalculator._calculate_volume_component. -/
def calculate_volume_component (sentiments : List (String × AggregatedSentiment)) : ℚ :=
  if sentiments = [] then 0
  else
    let volume_sentiment_product :=
      sentiments.map (fun e => (e.2.total_mentions : ℚ) * e.2.sentiment_score)
    let max_product :=
      if volume_sentiment_product = [] then 1
      else listMaxD (volume_sentiment_product.map (fun p => |p|)) 0
    if max_product > 0 then listMean volume_sentiment_product / max_product else 0

/-- FearGreedCalculator._calculate_correlation_component (a fixed stub). -/
def calculate_correlation_component : ℚ := 0

/-- FearGreedCalculator._classify_fear_greed. -/
def classify_fear_greed (score : ℚ) : String :=
  if score ≤ EXTREME_FEAR_THRESHOLD then "Extreme Fear"
  else if score ≤ FEAR_THRESHOLD then "Fear"
  else if score ≤ NEUTRAL_THRESHOLD then "Neutral"
  else if score ≤ GREED_THRESHOLD then "Greed"
  else "Extreme Greed"

/-- Weighted combination, rescale and clamp of
FearGreedCalculator.calculate_fear_greed_index, factored over the four
component values. -/
def overall_from_components (s m v c : ℚ) : ℚ :=
  let overall_score := s * (4/10) + m * (25/100) + v * (2/10) + c * (15/100)
  let rescaled := (overall_score + 1) * 50
  max 0 (min 100 rescaled)

/-- FearGreedCalculator.calculate_fear_greed_index.  `now` is
`datetime.now()` in the source. -/
def calculate_fear_greed_index (sentiments : List (String × AggregatedSentiment))
    (now : ℚ) : FearGreedIndex :=
  let sentiment_component := calculate_sentiment_component sentiments
  let momentum_component := calculate_momentum_component sentiments
  let volume_component := calculate_volume_component sentiments
  let correlation_component := calculate_correlation_component
  let overall_score := overall_from_components sentiment_component momentum_component
      volume_component correlation_component
  { timestamp := now, overall_score := overall_score,
    sentiment_component := sentiment_component,
    momentum_component := momentum_component,
    volume_component := volume_component,
    correlation_component := correlation_component,
    classification := classify_fear_greed overall_score }

/-- SignalGenerator._calculate_fear_greed_influence. -/
def calculate_fear_greed_influence (fg_score : ℚ) : ℚ :=
  if fg_score ≤ EXTREME_FEAR_THRESHOLD then 13/10
  else if fg_score ≤ FEAR_THRESHOLD then 11/10
  else if fg_score ≥ EXTREME_GREED_THRESHOLD then 7/10
  else if fg_score ≥ GREED_THRESHOLD then 9/10
  else 1

/-- SignalGenerator._calculate_risk_reward.  The source guards with
`not all([stop_loss, take_profit, entry_price])`, i.e. Python truthiness of
each `Optional[float]`. -/
def calculate_risk_reward (stop_loss take_profit entry_price : Option ℚ) : Option ℚ :=
  if truthy stop_loss = true ∧ truthy take_profit = true ∧ truthy entry_price = true then
    let sl := stop_loss.getD 0
    let tp := take_profit.getD 0
    let ep := entry_price.getD 0
    let risk := |ep - sl|
    let reward := |tp - ep|
    if risk > 0 then some (reward / risk) else none
  else none

/-- Draw one value from the modelled pseudo-random stream.  The global numpy
generator is modelled as a list of raw draws in `[0,1)`, consumed from the
front; an exhausted stream keeps yielding `0`. -/
def draw (rng : List ℚ) : ℚ × List ℚ := (rng.headD 0, rng.tail)

/-- Model of `np.random.uniform(a, b)`. -/
def uniform (a b : ℚ) (rng : List ℚ) : ℚ × List ℚ :=
  let (u, rng') := draw rng
  (a + (b - a) * u, rng')

/-- Model of `np.random.normal(0, sigma)`: a standard-normal sample is
modelled as the raw stream value, scaled by sigma. -/
def normal (sigma : ℚ) (rng : List ℚ) : ℚ × List ℚ :=
  let (u, rng') := draw rng
  (sigma * u, rng')

/-- Association-list lookup with a default, for the per-symbol dicts of
MockMarketData. -/
def lookupD (m : List (String × ℚ)) (key : String) (d : ℚ) : ℚ :=
  ((m.find? (fun e => e.1 == key)).map (fun e => e.2)).getD d

/-- Association-list update for the per-symbol dicts of MockMarketData. -/
def setAssoc (m : List (String × ℚ)) (key : String) (v : ℚ) : List (String × ℚ) :=
  match m with
  | [] => [(key, v)]
  | e :: rest => if e.1 == key then (key, v) :: rest else e :: setAssoc rest key v

/-- MockMarketData of `core/backtesting.py`. -/
structure MockMarketData where
  symbols : List String
  current_prices : List (String × ℚ)
  volatilities : List (String × ℚ)
deriving DecidableEq

/-- MockMarketData.__init__ : draws an initial price and a volatility per
symbol from the global generator. -/
def MockMarketData.init (symbols : List String) (rng : List ℚ) :
    MockMarketData × List ℚ :=
  let prices := symbols.foldl
    (fun acc sym =>
      let (v, rng') := uniform 100 50000 acc.2
      (acc.1 ++ [(sym, v)], rng'))
    (([] : List (String × ℚ)), rng)
  let vols := symbols.foldl
    (fun acc sym =>
      let (v, rng') := uniform (2/100) (5/100) acc.2
      (acc.1 ++ [(sym, v)], rng'))
    (([] : List (String × ℚ)), prices.2)
  ({ symbols := symbols, current_prices := prices.1, volatilities := vols.1 }, vols.2)

/-- Grid of timestamps produced by `while current <= end: ... current += step`
with a positive rational step, starting at `start_date`. -/
def timeSteps (start_date end_date step : ℚ) : List ℚ :=
  if start_date ≤ end_date then
    (List.range (((end_date - start_date) / step).floor.toNat + 1)).map
      (fun i => start_date + (i : ℚ) * step)
  else []

/-- Append a freshly generated MarketData to the per-symbol data dict. -/
def appendData (data : List (String × List MarketData)) (sym : String) (d : MarketData) :
    List (String × List MarketData) :=
  match data with
  | [] => [(sym, [d])]
  | e :: rest =>
    if e.1 == sym then (e.1, e.2 ++ [d]) :: rest else e :: appendData rest sym d

/-- Inner body of MockMarketData.generate_price_data: one (date, symbol)
step of the random walk, threading prices, collected data and the generator. -/
def generateStep (vols : List (String × ℚ)) (date : ℚ)
    (st : List (String × ℚ) × List (String × List MarketData) × List ℚ) (sym : String) :
    List (String × ℚ) × List (String × List MarketData) × List ℚ :=
  let (prices, data, rng) := st
  let (change, rng) := normal (lookupD vols sym 0) rng
  let price := max (lookupD prices sym 0 * (1 + change)) (1/100)
  let (volume, rng) := uniform 1000000 100000000 rng
  let (change_24h, rng) := uniform (-(15/100)) (15/100) rng
  let md : MarketData :=
    { symbol := sym, timestamp := date, price := price,
      volume := volume, change_24h := change_24h }
  (setAssoc prices sym price, appendData data sym md, rng)

/-- MockMarketData.generate_price_data (frequency in minutes, default 5 in
the source; both the generator and the engine loop use a 5-minute step). -/
def MockMarketData.generate_price_data (m : MockMarketData)
    (start_date end_date : ℚ) (frequency_minutes : ℚ) (rng : List ℚ) :
    List (String × List MarketData) × List ℚ :=
  let dates := timeSteps start_date end_date (frequency_minutes * 60)
  let init_data := m.symbols.map (fun sym => (sym, ([] : List MarketData)))
  let final := dates.foldl
    (fun st date => m.symbols.foldl (generateStep m.volatilities date) st)
    (m.current_prices, init_data, rng)
  (final.2.1, final.2.2)

/-- BacktestResult of `core/data_models.py` together with its `details` dict
(whose keys are fixed in BacktestEngine._calculate_results).  `profit_factor`
is `Option ℚ`, `none` modelling `float('inf')`. -/
structure BacktestResult where
  strategy_name : String
  start_date : ℚ
  end_date : ℚ
  total_return : ℚ
  sharpe_ratio : ℚ
  max_drawdown : ℚ
  win_rate : ℚ
  profit_factor : Option ℚ
  total_trades : ℕ
  avg_trade_duration : ℚ
  final_equity : ℚ
  total_profitable_trades : ℕ
  total_losing_trades : ℕ
  largest_win : ℚ
  largest_loss : ℚ
  avg_win : ℚ
  avg_loss : ℚ
  max_consecutive_wins : ℕ
  max_consecutive_losses : ℕ
  equity_curve : List EquityPoint
  all_trades : List Position
deriving DecidableEq

/-- Insertion into a list of positions sorted by entry time, for
`sorted(trades, key=lambda x: x.entry_time)`. -/
def insertByEntryTime (p : Position) : List Position → List Position
  | [] => [p]
  | q :: rest =>
    if p.entry_time ≤ q.entry_time then p :: q :: rest else q :: insertByEntryTime p rest

/-- Sort of a trade list by entry time. -/
def sortByEntryTime (trades : List Position) : List Position :=
  trades.foldr insertByEntryTime []

/-- BacktestEngine._calculate_max_consecutive: the counter is incremented for
every trade of the sorted list and never reset. -/
def calculate_max_consecutive (trades : List Position) : ℕ :=
  if trades = [] then 0
  else
    let sorted_trades := sortByEntryTime trades
    (sorted_trades.foldl
      (fun st _ =>
        let current_consecutive := st.2 + 1
        (max st.1 current_consecutive, current_consecutive))
      ((0 : ℕ), (0 : ℕ))).1

/-- BacktestEngine._calculate_results. -/
def calculate_results (pf : Portfolio) (start_date end_date : ℚ) : BacktestResult :=
  let final_equity :=
    match pf.equity_curve.getLast? with
    | some pt => pt.equity
    | none => pf.initial_capital
  let total_return := (final_equity - pf.initial_capital) / pf.initial_capital
  let sharpe_ratio :=
    if pf.daily_returns = [] then 0
    else
      let var := listVariance pf.daily_returns
      if var > 0 then listMean pf.daily_returns / ratSqrt var * ratSqrt 252 else 0
  let profitable_trades := pf.closed_positions.filter (fun p => p.pnl > 0)
  let losing_trades := pf.closed_positions.filter (fun p => p.pnl < 0)
  let total_trades := pf.closed_positions.length
  let win_rate :=
    if total_trades > 0 then (profitable_trades.length : ℚ) / (total_trades : ℚ) else 0
  let total_profit := (profitable_trades.map (fun p => p.pnl)).sum
  let total_loss := |(losing_trades.map (fun p => p.pnl)).sum|
  let profit_factor := if total_loss > 0 then some (total_profit / total_loss) else none
  let avg_trade_duration :=
    if pf.closed_positions = [] then 0
    else
      let durations := pf.closed_positions.filterMap
        (fun p => p.exit_time.map (fun et => (et - p.entry_time) / 3600))
      if durations = [] then 0 else listMean durations
  { strategy_name := "Sentiment-Based Trading",
    start_date := start_date, end_date := end_date,
    total_return := total_return, sharpe_ratio := sharpe_ratio,
    max_drawdown := pf.max_drawdown, win_rate := win_rate,
    profit_factor := profit_factor, total_trades := total_trades,
    avg_trade_duration := avg_trade_duration,
    final_equity := final_equity,
    total_profitable_trades := profitable_trades.length,
    total_losing_trades := losing_trades.length,
    largest_win := listMaxD (profitable_trades.map (fun p => p.pnl)) 0,
    largest_loss := listMinD (losing_trades.map (fun p => p.pnl)) 0,
    avg_win := if profitable_trades = [] then 0
               else listMean (profitable_trades.map (fun p => p.pnl)),
    avg_loss := if losing_trades = [] then 0
                else listMean (losing_trades.map (fun p => p.pnl)),
    max_consecutive_wins := calculate_max_consecutive profitable_trades,
    max_consecutive_losses := calculate_max_consecutive losing_trades,
    equity_curve := pf.equity_curve,
    all_trades := pf.closed_positions }

/-- First-minimum selection of `min(symbol_data, key=lambda x: abs(...))`. -/
def closest_data (xs : List MarketData) (t : ℚ) : Option MarketData :=
  xs.foldl
    (fun best x =>
      match best with
      | none => some x
      | some b => if |x.timestamp - t| < |b.timestamp - t| then some x else some b)
    none

/-- Current market snapshot of the engine loop: the closest data point per
symbol (the source indexes `market_data[symbol]`, whose keys are exactly the
symbols). -/
def current_snapshot (market_data : List (String × List MarketData))
    (symbols : List String) (t : ℚ) : List MarketData :=
  symbols.filterMap
    (fun sym =>
      ((market_data.find? (fun e => e.1 == sym)).map (fun e => e.2)).bind
        (fun xs => closest_data xs t))

/-- Grouping of signals by timestamp (`signals_by_time` dict, insertion
ordered). -/
def signals_by_time (signals : List TradingSignal) : List (ℚ × List TradingSignal) :=
  signals.foldl
    (fun groups s =>
      if (groups.find? (fun g => g.1 == s.timestamp)).isSome then
        groups.map (fun g => if g.1 == s.timestamp then (g.1, g.2 ++ [s]) else g)
      else groups ++ [(s.timestamp, [s])])
    []

/-- One 5-minute step of the engine loop of BacktestEngine.run_backtest.
The state threads the portfolio together with the stream of wall-clock
readings: the source stamps each equity-curve point with `datetime.now()`, so
each update_positions call consumes the next reading from that stream. -/
def engineStep (grouped : List (ℚ × List TradingSignal))
    (market_data : List (String × List MarketData)) (symbols : List String)
    (st : Portfolio × List ℚ) (t : ℚ) : Portfolio × List ℚ :=
  let (pf, clock) := st
  let snapshot := current_snapshot market_data symbols t
  let pf1 :=
    match grouped.find? (fun g => g.1 == t) with
    | some g =>
      g.2.foldl
        (fun (pf : Portfolio) (s : TradingSignal) =>
          match snapshot.find? (fun (d : MarketData) => d.symbol == s.asset) with
          | some d => (pf.add_signal s d.price).1
          | none => pf)
        pf
    | none => pf
  let (now, clock') := draw clock
  (pf1.update_positions snapshot now, clock')

/-- Market data generated at the start of BacktestEngine.run_backtest (the
MockMarketData construction followed by generate_price_data). -/
def generated_market_data (symbols : List String) (start_date end_date : ℚ)
    (rng : List ℚ) : List (String × List MarketData) :=
  let (mock, rng1) := MockMarketData.init symbols rng
  (mock.generate_price_data start_date end_date 5 rng1).1

/-- Deduplication preserving first occurrence, modelling one possible
iteration order of Python `list(set(...))` (only reached when `symbols` is
empty). -/
def dedup (xs : List String) : List String :=
  xs.foldl (fun acc x => if x ∈ acc then acc else acc ++ [x]) []

/-- BacktestEngine.run_backtest.  Both ambient effects of the source are
explicit streams: the hidden global numpy generator state is the `rng`
argument, and the successive `datetime.now()` readings stamped on the
equity-curve points are the `clock` argument (one reading consumed per
simulation tick). -/
def run_backtest (rng clock : List ℚ) (signals : List TradingSignal)
    (start_date end_date : ℚ) (initial_capital : ℚ) (symbols : List String) :
    BacktestResult :=
  let symbols := if symbols = [] then dedup (signals.map (fun s => s.asset)) else symbols
  let market_data := generated_market_data symbols start_date end_date rng
  let grouped := signals_by_time signals
  let pf := ((timeSteps start_date end_date 300).foldl
    (engineStep grouped market_data symbols) (Portfolio.init initial_capital, clock)).1
  calculate_results pf start_date end_date

/-- Concrete signal used to exercise the C10 theorem. -/
def c10_signal : TradingSignal :=
  { asset := "BTC", timestamp := 0, signal_type := SignalType.BUY,
    confidence := 8/10, strength := 1/2, stop_loss := some 0,
    take_profit := none, position_size := 1/10 }

/-- Concrete BUY signal opening the pre-existing C1 position. -/
def c1_open_signal : TradingSignal :=
  { asset := "BTC", timestamp := 0, signal_type := SignalType.BUY,
    confidence := 8/10, strength := 1/2, position_size := 1/10 }

/-- Concrete oversized BUY signal (positionSizeFraction 1 > 0.95) for C1. -/
def c1_big_signal : TradingSignal :=
  { asset := "BTC", timestamp := 10, signal_type := SignalType.BUY,
    confidence := 8/10, strength := 1/2, position_size := 1 }

/-- Portfolio with capital 100 holding one open BTC position entered at 100,
for C1. -/
def c1_portfolio : Portfolio :=
  { Portfolio.init 100 with positions := [Position.new "BTC" c1_open_signal 100] }

/-- Portfolio with capital 100 holding one open BTC position entered at 100,
for C2. -/
def c2_portfolio : Portfolio :=
  { Portfolio.init 100 with positions := [Position.new "BTC" c1_open_signal 100] }

/-- Market snapshot with the BTC price risen to 120, for C2. -/
def c2_snapshot : List MarketData :=
  [{ symbol := "BTC", timestamp := 300, price := 120, volume := 1000, change_24h := 0 }]

/-- One scenario-A sentiment observation, for C3. -/
def c3_item (t sc : ℚ) : SentimentItem :=
  { timestamp := t, sentiment_score := sc, confidence := 1, relevance := 1,
    source := DataSource.NEWS, volume_proxy := 1 }

/-- Aggregator history of scenario A: asset X scored 0.8, 0.6, -0.2 at
t = 0s, 30s, 50s, all with volume proxy 1. -/
def c3_history : List (String × List SentimentItem) :=
  [("X", [c3_item 0 (8/10), c3_item 30 (6/10), c3_item 50 (-(2/10))])]

/-- Concrete BUY signal traded in the C4 backtest runs. -/
def c4_signal : TradingSignal :=
  { asset := "A", timestamp := 0, signal_type := SignalType.BUY,
    confidence := 8/10, strength := 1/2, position_size := 1/10 }

/-- Momentum as the amended C3 claim states it: for at least two in-window
scores, the mean of the later ceil(n/2) scores (the chronologically later
half, which for an odd count also contains the middle observation) minus the
mean of the earlier floor(n/2) scores; zero with fewer than two entries. -/
def momentum_amended_spec (scores : List ℚ) : ℚ :=
  if 2 ≤ scores.length then
    listMean (scores.drop (scores.length / 2)) - listMean (scores.take (scores.length / 2))
  else 0

/-- Scenario-A aggregate value computed by the embedded query, used to
exercise the amended C3 theorem. -/
def c3_result : AggregatedSentiment :=
  { asset := "X", timestamp := 60, window_size := 60, total_mentions := 3,
    sentiment_score := 2/5, confidence := 1, volume_weighted_score := 2/5,
    momentum := -(3/5), sources_breakdown := [(DataSource.NEWS, 3, 2/5)] }

/-- History used to exercise the C7 theorem: asset Y has one observation
inside the 50-second window at evaluation time 120 and one outside it. -/
def c7_history : List SentimentItem :=
  [{ timestamp := 0, sentiment_score := 3/10, confidence := 1/2, relevance := 1,
     source := DataSource.TWITTER, volume_proxy := 2 },
   { timestamp := 100, sentiment_score := 1/2, confidence := 1, relevance := 1,
     source := DataSource.NEWS, volume_proxy := 2 }]

/-- Aggregator state for the C7 witness. -/
def c7_data : List (String × List SentimentItem) := [("Y", c7_history)]

/-- Aggregate record returned by the embedded query on the C7 witness data. -/
def c7_result : AggregatedSentiment :=
  { asset := "Y", timestamp := 120, window_size := 50, total_mentions := 1,
    sentiment_score := 1/2, confidence := 1, volume_weighted_score := 1/2,
    momentum := 0, sources_breakdown := [(DataSource.NEWS, 1, 1/2)] }

/-- Portfolio invariant carried through every operation: every stored
position is open, and the stored positions carry pairwise-distinct symbols. -/
def PortfolioInv (pf : Portfolio) : Prop :=
  (∀ p ∈ pf.positions, p.is_closed = false) ∧
  (pf.positions.map (fun p => p.symbol)).Nodup

/-- Portfolio states reachable from a fresh portfolio by any interleaving of
submitted signals (add_signal) and market updates (update_positions). -/
inductive ReachablePortfolio : Portfolio → Prop where
  | init (initial_capital : ℚ) : ReachablePortfolio (Portfolio.init initial_capital)
  | add_signal (pf : Portfolio) (s : TradingSignal) (price : ℚ) :
      ReachablePortfolio pf → ReachablePortfolio (pf.add_signal s price).1
  | update (pf : Portfolio) (md : List MarketData) (now : ℚ) :
      ReachablePortfolio pf → ReachablePortfolio (pf.update_positions md now)

/-- Second BUY signal, on a different asset, for the C6 witness. -/
def c6_signal_eth : TradingSignal :=
  { asset := "ETH", timestamp := 5, signal_type := SignalType.BUY,
    confidence := 8/10, strength := 1/2, position_size := 1/10 }

theorem length_insertByEntryTime (p : Position) (l : List Position) :
    (insertByEntryTime p l).length = l.length + 1 := by
  induction l with
  | nil => rfl
  | cons q rest ih =>
    simp only [insertByEntryTime]
    split
    · simp
    · simp [ih]

theorem length_sortByEntryTime (l : List Position) :
    (sortByEntryTime l).length = l.length := by
  induction l with
  | nil => rfl
  | cons p rest ih =>
    show (insertByEntryTime p (sortByEntryTime rest)).length = rest.length + 1
    rw [length_insertByEntryTime, ih]

theorem maxconsec_foldl (l : List Position) :
    ∀ mc cc : ℕ, cc ≤ mc →
      l.foldl
        (fun st _ =>
          let current_consecutive := st.2 + 1
          (max st.1 current_consecutive, current_consecutive)) (mc, cc)
        = (max mc (cc + l.length), cc + l.length) := by
  induction l with
  | nil =>
    intro mc cc h
    simp [Nat.max_eq_left h]
  | cons x rest ih =>
    intro mc cc h
    simp only [List.foldl_cons]
    rw [ih (max mc (cc + 1)) (cc + 1) (le_max_right _ _)]
    have h1 : max (max mc (cc + 1)) (cc + 1 + rest.length) = max mc (cc + (x :: rest).length) := by
      rw [max_assoc]
      have : max (cc + 1) (cc + 1 + rest.length) = cc + 1 + rest.length :=
        Nat.max_eq_right (by omega)
      rw [this]
      congr 1
      simp
      omega
    have h2 : cc + 1 + rest.length = cc + (x :: rest).length := by simp; omega
    rw [h1, h2]

/-- C9: for every list of closed trades, BacktestEngine._calculate_max_consecutive
returns the total number of trades in the list (0 for an empty list), not a true
consecutive-streak length: the counter is incremented for every trade of the
sorted list and never reset. -/
theorem c9_max_consecutive_is_length (trades : List Position) :
    calculate_max_consecutive trades = trades.length := by
  by_cases h : trades = []
  · subst h; rfl
  · simp only [calculate_max_consecutive, if_neg h]
    rw [maxconsec_foldl (sortByEntryTime trades) 0 0 le_rfl]
    simp [length_sortByEntryTime]

/-- C5 counterexample: a composite-index score of 60 is classified Greed but
gets fgInfluence 1.0 (the claim demands 0.9), and a score of 80 is classified
Extreme Greed but gets fgInfluence 0.9 (the claim demands 0.7). -/
theorem c5_counterexample :
    classify_fear_greed 60 = "Greed" ∧ calculate_fear_greed_influence 60 = 1 ∧
    classify_fear_greed 80 = "Extreme Greed" ∧ calculate_fear_greed_influence 80 = 9/10 ∧
    ((1 : ℚ) ≠ 9/10) ∧ ((9/10 : ℚ) ≠ 7/10) := by
  with_unfolding_all decide

/-- C5 amended: fgInfluence is 1.3 for scores up to 25 and 1.1 up to 45
(agreeing with the Extreme Fear and Fear buckets), but on the upper side its
brackets are shifted one bucket up relative to the classification: 1.0 on
(45, 75) (covering all of Neutral and almost all of Greed), 0.9 on [75, 90)
(the top Greed point and the lower part of Extreme Greed), and 0.7 only from
90 upward. -/
theorem c5_influence_brackets (s : ℚ) :
    calculate_fear_greed_influence s =
      (if s ≤ 25 then 13/10 else if s ≤ 45 then 11/10
       else if s < 75 then 1 else if s < 90 then 9/10 else 7/10) := by
  unfold calculate_fear_greed_influence EXTREME_FEAR_THRESHOLD FEAR_THRESHOLD
    EXTREME_GREED_THRESHOLD GREED_THRESHOLD
  split_ifs <;> first | rfl | linarith

/-- C8: the composite index's overallScore is the weighted component sum
(weights 0.4, 0.25, 0.2, 0.15) rescaled via (weightedSum + 1) x 50 and clamped
to [0,100]; components (0.5, 0.2, 0.1, 0.0) give overallScore 63.5 = 127/2,
classified Greed. -/
theorem c8_overall_score_formula :
    (∀ (sentiments : List (String × AggregatedSentiment)) (now : ℚ),
      0 ≤ (calculate_fear_greed_index sentiments now).overall_score ∧
      (calculate_fear_greed_index sentiments now).overall_score ≤ 100 ∧
      (calculate_fear_greed_index sentiments now).overall_score =
        max 0 (min 100
          ((calculate_sentiment_component sentiments * (2/5) +
            calculate_momentum_component sentiments * (1/4) +
            calculate_volume_component sentiments * (1/5) +
            calculate_correlation_component * (3/20) + 1) * 50))) ∧
    overall_from_components (1/2) (1/5) (1/10) 0 = 127/2 ∧
    classify_fear_greed (overall_from_components (1/2) (1/5) (1/10) 0) = "Greed" := by
  refine ⟨fun sentiments now => ⟨?_, ?_, ?_⟩, by with_unfolding_all decide,
    by with_unfolding_all decide⟩
  · exact le_max_left 0 _
  · exact max_le (by norm_num) (min_le_left _ _)
  · show overall_from_components _ _ _ _ = _
    unfold overall_from_components
    norm_num

/-- C10: a stop-loss or take-profit level that is None or exactly 0.0 is
falsy, so the corresponding exit can never fire; and the risk-reward
computation returns None whenever stop loss, take profit or entry price is
None or 0.0. -/
theorem c10_zero_levels_inert (p : Position) (price t : ℚ) (sl tp ep : Option ℚ) :
    ((p.signal.stop_loss = none ∨ p.signal.stop_loss = some 0) →
      (p.check_exit_conditions price t).2 ≠ "stop_loss") ∧
    ((p.signal.take_profit = none ∨ p.signal.take_profit = some 0) →
      (p.check_exit_conditions price t).2 ≠ "take_profit") ∧
    ((sl = none ∨ sl = some 0 ∨ tp = none ∨ tp = some 0 ∨ ep = none ∨ ep = some 0) →
      calculate_risk_reward sl tp ep = none) := by
  refine ⟨?_, ?_, ?_⟩
  · intro h
    have ht : truthy p.signal.stop_loss = false := by
      rcases h with h | h <;> simp [truthy, h]
    unfold Position.check_exit_conditions
    split_ifs with h1 h2 h3 <;> simp_all
  · intro h
    have ht : truthy p.signal.take_profit = false := by
      rcases h with h | h <;> simp [truthy, h]
    unfold Position.check_exit_conditions
    split_ifs with h1 h2 h3 <;> simp_all
  · intro h
    unfold calculate_risk_reward
    have : ¬(truthy sl = true ∧ truthy tp = true ∧ truthy ep = true) := by
      rcases h with h | h | h | h | h | h <;> subst h <;> simp [truthy]
    rw [if_neg this]

theorem c10_witness :
    (((Position.new "BTC" c10_signal 100).check_exit_conditions 95 60).2 ≠ "stop_loss") ∧
    (((Position.new "BTC" c10_signal 100).check_exit_conditions 95 60).2 ≠ "take_profit") ∧
    calculate_risk_reward (some 0) (some 110) (some 100) = none :=
  ⟨(c10_zero_levels_inert (Position.new "BTC" c10_signal 100) 95 60 (some 0) (some 110)
      (some 100)).1 (Or.inr rfl),
   (c10_zero_levels_inert (Position.new "BTC" c10_signal 100) 95 60 (some 0) (some 110)
      (some 100)).2.1 (Or.inl rfl),
   (c10_zero_levels_inert (Position.new "BTC" c10_signal 100) 95 60 (some 0) (some 110)
      (some 100)).2.2 (Or.inr (Or.inl rfl))⟩

/-- C1 counterexample: an oversized signal on an asset with an existing open
position is rejected (returns false) but the portfolio state has changed: the
old position was closed and settled before the capital guard fired, so
capital moved from 100 to 102 and the closed-trades list grew. -/
theorem c1_counterexample :
    (c1_portfolio.add_signal c1_big_signal 120).2 = false ∧
    c1_portfolio.current_capital = 100 ∧
    (c1_portfolio.add_signal c1_big_signal 120).1.current_capital = 102 ∧
    c1_portfolio.closed_positions.length = 0 ∧
    (c1_portfolio.add_signal c1_big_signal 120).1.closed_positions.length = 1 := by
  with_unfolding_all decide

/-- C2 counterexample: on a tick where equity (102) exceeds the previous
peak (100), the equity-curve point is appended with the stale peak, so its
recorded drawdown is -1/50 < 0. -/
theorem c2_counterexample :
    ((c2_portfolio.update_positions c2_snapshot 300).equity_curve.map
      (fun pt => pt.drawdown)) = [-(1/50)] ∧
    ¬ ((0 : ℚ) ≤ -(1/50)) := by
  with_unfolding_all decide

/-- C3 counterexample: the scenario-A query returns sampleCount 3 and
meanScore 0.4 as claimed, but momentum -3/5 = mean([0.6, -0.2]) - mean([0.8]),
not the claimed -9/10: for an odd-sized window the source puts the middle
element in the later half. -/
theorem c3_counterexample :
    (get_aggregated_sentiment c3_history "X" 60 60).map
      (fun r => (r.total_mentions, r.sentiment_score, r.momentum))
      = some (3, 2/5, -(3/5)) ∧
    ((-(3/5) : ℚ) ≠ -(9/10)) := by
  with_unfolding_all decide

/-- C4 counterexample: run_backtest is not a deterministic function of its
listed arguments.  Two invocations with identical signals, dates, capital and
symbols, differing only in the hidden state of the global pseudo-random
generator, return different total returns (0 versus 1/1000); and two
invocations that even generate identical market data but observe different
wall-clock readings return different BacktestResult values (the equity-curve
timestamps inside the details differ). -/
theorem c4_counterexample :
    (run_backtest [] [] [c4_signal] 0 300 100 ["A"]).total_return = 0 ∧
    (run_backtest [0, 0, 0, 0, 0, 1/2] [] [c4_signal] 0 300 100 ["A"]).total_return
      = 1/1000 ∧
    ((0 : ℚ) ≠ 1/1000) ∧
    run_backtest [] [1] [] 0 0 100 ["A"] ≠ run_backtest [] [2] [] 0 0 100 ["A"] := by
  with_unfolding_all decide

/-- C4 amended: the backtest is a deterministic replay only relative to its
two ambient effects.  The engine draws its synthetic price series from the
global unseeded generator and stamps equity-curve points with the wall clock
(so two invocations with identical listed arguments can differ in either way,
see the counterexample); but any two invocations whose draws produce the same
generated market data - in particular invocations with the same generator
state - and which observe the same wall-clock readings return identical
BacktestResult values. -/
theorem c4_deterministic_given_data (signals : List TradingSignal)
    (start_date end_date initial_capital : ℚ) (symbols : List String)
    (rng1 rng2 clock : List ℚ) (hs : symbols ≠ [])
    (h : generated_market_data symbols start_date end_date rng1
       = generated_market_data symbols start_date end_date rng2) :
    run_backtest rng1 clock signals start_date end_date initial_capital symbols
      = run_backtest rng2 clock signals start_date end_date initial_capital symbols := by
  unfold run_backtest
  rw [if_neg hs]
  dsimp only
  rw [h]

theorem c4_witness :
    run_backtest [1/2, 1/3] [7] [] 0 0 100 ["A"]
      = run_backtest [1/2, 1/3] [7] [] 0 0 100 ["A"] :=
  c4_deterministic_given_data [] 0 0 100 ["A"] [1/2, 1/3] [1/2, 1/3] [7]
    (by decide) rfl

theorem get_aggregated_sentiment_fields (sentiment_data : List (String × List SentimentItem))
    (asset : String) (w now : ℚ) (r : AggregatedSentiment)
    (h : get_aggregated_sentiment sentiment_data asset w now = some r) :
    ∃ history, lookup_history sentiment_data asset = some history ∧
      history.filter (fun item => item.timestamp ≥ now - w) ≠ [] ∧
      r.total_mentions = (history.filter (fun item => item.timestamp ≥ now - w)).length ∧
      r.sentiment_score = listMean ((history.filter (fun item => item.timestamp ≥ now - w)).map
        (fun item => item.sentiment_score)) ∧
      r.confidence = listMean ((history.filter (fun item => item.timestamp ≥ now - w)).map
        (fun item => item.confidence)) ∧
      r.momentum =
        (if (history.filter (fun item => item.timestamp ≥ now - w)).length / 2 > 0 then
          listMean (((history.filter (fun item => item.timestamp ≥ now - w)).map
              (fun item => item.sentiment_score)).drop
            ((history.filter (fun item => item.timestamp ≥ now - w)).length / 2)) -
          listMean (((history.filter (fun item => item.timestamp ≥ now - w)).map
              (fun item => item.sentiment_score)).take
            ((history.filter (fun item => item.timestamp ≥ now - w)).length / 2))
        else 0) := by
  unfold get_aggregated_sentiment at h
  cases hl : lookup_history sentiment_data asset with
  | none => rw [hl] at h; exact absurd h (by simp)
  | some history =>
    rw [hl] at h
    dsimp only at h
    by_cases he : history.filter (fun item => decide (item.timestamp ≥ now - w)) = []
    · rw [if_pos he] at h; exact absurd h (by simp)
    · rw [if_neg he] at h
      injection h with h
      subst h
      exact ⟨history, rfl, he, rfl, rfl, rfl, rfl⟩

/-- C3 amended: whenever the aggregator query returns a value, its momentum
is the mean score of the later ceil(n/2) in-window entries minus the mean of
the earlier floor(n/2) entries (zero with fewer than 2 entries); on scenario
A (scores 0.8, 0.6, -0.2) this gives mean([0.6, -0.2]) - mean([0.8]) = -3/5,
not -9/10. -/
theorem c3_momentum_split (sentiment_data : List (String × List SentimentItem))
    (asset : String) (w now : ℚ) (r : AggregatedSentiment)
    (h : get_aggregated_sentiment sentiment_data asset w now = some r) :
    r.momentum = momentum_amended_spec
      ((((lookup_history sentiment_data asset).getD []).filter
        (fun item => item.timestamp ≥ now - w)).map (fun item => item.sentiment_score)) := by
  obtain ⟨history, hl, hne, -, -, -, hm⟩ :=
    get_aggregated_sentiment_fields sentiment_data asset w now r h
  rw [hl]
  simp only [Option.getD_some]
  rw [hm]
  unfold momentum_amended_spec
  rw [List.length_map]
  by_cases h2 : 2 ≤ (history.filter (fun item => item.timestamp ≥ now - w)).length
  · rw [if_pos h2, if_pos (by omega)]
  · rw [if_neg h2, if_neg (by omega)]

theorem c3_witness :
    c3_result.momentum = momentum_amended_spec
      ((((lookup_history c3_history "X").getD []).filter
        (fun item => item.timestamp ≥ (60 : ℚ) - 60)).map (fun item => item.sentiment_score)) :=
  c3_momentum_split c3_history "X" 60 60 c3_result (by with_unfolding_all decide)

/-- C7: the aggregator query keeps exactly the observations with
now - t <= windowSeconds (the source's `timestamp >= cutoff` filter) in its
statistics, and returns None - not an error - when the asset has no history
or no entry remains in the window. -/
theorem c7_window_correctness (sentiment_data : List (String × List SentimentItem))
    (asset : String) (w now : ℚ) :
    (lookup_history sentiment_data asset = none →
      get_aggregated_sentiment sentiment_data asset w now = none) ∧
    (∀ history, lookup_history sentiment_data asset = some history →
      (history.filter (fun item => now - item.timestamp ≤ w) = [] →
        get_aggregated_sentiment sentiment_data asset w now = none) ∧
      (∀ r, get_aggregated_sentiment sentiment_data asset w now = some r →
        r.total_mentions = (history.filter (fun item => now - item.timestamp ≤ w)).length ∧
        r.sentiment_score = listMean ((history.filter (fun item => now - item.timestamp ≤ w)).map
          (fun item => item.sentiment_score)) ∧
        r.confidence = listMean ((history.filter (fun item => now - item.timestamp ≤ w)).map
          (fun item => item.confidence)))) := by
  have hfil : ∀ history : List SentimentItem,
      history.filter (fun item => now - item.timestamp ≤ w)
        = history.filter (fun item => item.timestamp ≥ now - w) := by
    intro history
    apply List.filter_congr
    intro item _
    simp only [decide_eq_decide]
    constructor <;> intro hx <;> linarith
  constructor
  · intro hl
    unfold get_aggregated_sentiment
    rw [hl]
  · intro history hl
    constructor
    · intro hempty
      unfold get_aggregated_sentiment
      rw [hl]
      dsimp only
      rw [if_pos (by rw [← hfil history]; exact hempty)]
    · intro r hr
      obtain ⟨history2, hl2, -, hmen, hsc, hconf, -⟩ :=
        get_aggregated_sentiment_fields sentiment_data asset w now r hr
      rw [hl] at hl2
      injection hl2 with hl2
      subst hl2
      rw [hfil history]
      exact ⟨hmen, hsc, hconf⟩

theorem c7_witness :
    c7_result.total_mentions
        = (c7_history.filter (fun item => (120 : ℚ) - item.timestamp ≤ 50)).length ∧
    c7_result.sentiment_score
        = listMean ((c7_history.filter (fun item => (120 : ℚ) - item.timestamp ≤ 50)).map
          (fun item => item.sentiment_score)) ∧
    c7_result.confidence
        = listMean ((c7_history.filter (fun item => (120 : ℚ) - item.timestamp ≤ 50)).map
          (fun item => item.confidence)) :=
  ((c7_window_correctness c7_data "Y" 50 120).2 c7_history (by with_unfolding_all decide)).2
    c7_result (by with_unfolding_all decide)

theorem update_positions_loop_fields (md : List MarketData) (l : List Position) :
    ∀ pf : Portfolio,
      (Portfolio.update_positions_loop md pf l).equity_curve = pf.equity_curve ∧
      (Portfolio.update_positions_loop md pf l).peak_equity = pf.peak_equity := by
  induction l with
  | nil => intro pf; exact ⟨rfl, rfl⟩
  | cons p rest ih =>
    intro pf
    simp only [Portfolio.update_positions_loop]
    cases hf : md.find? (fun d => d.symbol == p.symbol) with
    | none => exact ih _
    | some d =>
      dsimp only
      by_cases hc : (p.update_price d.price d.timestamp).is_closed = true
      · rw [if_pos hc]
        have hs := ih (pf.settle_closed_position (p.update_price d.price d.timestamp))
        rw [hs.1, hs.2]
        exact ⟨rfl, rfl⟩
      · rw [if_neg hc]
        exact ih _

/-- C2 amended: each update_positions call appends exactly one equity point;
its drawdown is computed against the peak equity from before the call (the
peak is only raised afterwards), so it is non-negative whenever the tick's
equity does not exceed the previous peak, but is negative on any tick whose
equity rises above that peak. -/
theorem c2_drawdown_sign (pf : Portfolio) (md : List MarketData) (now : ℚ)
    (hpk : 0 < pf.peak_equity) :
    ∃ pt : EquityPoint,
      (pf.update_positions md now).equity_curve = pf.equity_curve ++ [pt] ∧
      pt.drawdown = (pf.peak_equity - pt.equity) / pf.peak_equity ∧
      (pt.equity ≤ pf.peak_equity → 0 ≤ pt.drawdown) ∧
      (pf.peak_equity < pt.equity → pt.drawdown < 0) := by
  unfold Portfolio.update_positions
  have hfields := update_positions_loop_fields md pf.positions { pf with positions := [] }
  set pf1 := Portfolio.update_positions_loop md { pf with positions := [] } pf.positions
    with hpf1
  obtain ⟨hcurve, hpeak⟩ := hfields
  dsimp only
  set e := pf1.calculate_current_equity md with he
  refine ⟨{ timestamp := now, equity := e, drawdown := (pf1.peak_equity - e) / pf1.peak_equity },
    ?_, ?_, ?_, ?_⟩
  · by_cases hgt : e > ({ pf1 with equity_curve := pf1.equity_curve ++
        [{ timestamp := now, equity := e,
           drawdown := (pf1.peak_equity - e) / pf1.peak_equity }] } : Portfolio).peak_equity
    · rw [if_pos hgt]
      simp [hcurve]
    · rw [if_neg hgt]
      simp [hcurve]
  · simp only [hpeak]
  · intro hle
    simp only at hle ⊢
    rw [hpeak]
    apply div_nonneg _ (le_of_lt hpk)
    rw [← hpeak] at hle ⊢
    linarith
  · intro hlt
    simp only at hlt ⊢
    rw [hpeak]
    apply div_neg_of_neg_of_pos
    · rw [← hpeak] at hlt ⊢
      linarith
    · rw [← hpeak] at hpk ⊢
      exact hpk

theorem c2_witness :
    ∃ pt : EquityPoint,
      (c2_portfolio.update_positions c2_snapshot 300).equity_curve
        = c2_portfolio.equity_curve ++ [pt] ∧
      pt.drawdown = (c2_portfolio.peak_equity - pt.equity) / c2_portfolio.peak_equity ∧
      (pt.equity ≤ c2_portfolio.peak_equity → 0 ≤ pt.drawdown) ∧
      (c2_portfolio.peak_equity < pt.equity → pt.drawdown < 0) :=
  c2_drawdown_sign c2_portfolio c2_snapshot 300 (by with_unfolding_all decide)

/-- C1 amended: add_signal rejects a HOLD signal with no state change, and
rejects an oversized request (position value above 95% of capital) with no
state change only when no position is open on the asset; when a position is
open on the asset, it is always closed and settled first - even if the new
signal is then rejected by the capital guard - and when the guard passes with
no prior open position, the signal is accepted and exactly the new open
Position is appended. -/
theorem c1_add_signal_cases (pf : Portfolio) (s : TradingSignal) (price : ℚ) :
    (s.signal_type = SignalType.HOLD → pf.add_signal s price = (pf, false)) ∧
    (s.signal_type ≠ SignalType.HOLD → pf.get_open_position s.asset = none →
      pf.current_capital * s.position_size > pf.current_capital * (95/100) →
      pf.add_signal s price = (pf, false)) ∧
    (s.signal_type ≠ SignalType.HOLD → ∀ ex, pf.get_open_position s.asset = some ex →
      (pf.add_signal s price).1.closed_positions
        = pf.closed_positions ++ [ex.close_position price s.timestamp "new_signal"]) ∧
    (s.signal_type ≠ SignalType.HOLD → pf.get_open_position s.asset = none →
      ¬ pf.current_capital * s.position_size > pf.current_capital * (95/100) →
      pf.add_signal s price
        = ({ pf with positions := pf.positions ++ [Position.new s.asset s price] }, true)) := by
  refine ⟨?_, ?_, ?_, ?_⟩
  · intro h
    unfold Portfolio.add_signal
    rw [if_pos h]
  · intro h1 h2 h3
    unfold Portfolio.add_signal
    rw [if_neg h1, h2]
    dsimp only
    rw [if_pos h3]
  · intro h1 ex h2
    unfold Portfolio.add_signal
    rw [if_neg h1, h2]
    dsimp only
    split_ifs <;> simp [Portfolio.settle_closed_position]
  · intro h1 h2 h3
    unfold Portfolio.add_signal
    rw [if_neg h1, h2]
    dsimp only
    rw [if_neg h3]

theorem c1_witness :
    (c1_portfolio.add_signal c1_open_signal 110).1.closed_positions
      = c1_portfolio.closed_positions
        ++ [(Position.new "BTC" c1_open_signal 100).close_position 110
              c1_open_signal.timestamp "new_signal"] :=
  (c1_add_signal_cases c1_portfolio c1_open_signal 110).2.2.1 (by decide)
    (Position.new "BTC" c1_open_signal 100) (by with_unfolding_all decide)

theorem Position.symbol_track_excursions (p : Position) (a : ℚ) :
    (p.track_excursions a).symbol = p.symbol := by
  unfold Position.track_excursions
  split_ifs <;> rfl

theorem Position.symbol_close_position (p : Position) (x t : ℚ) (r : String) :
    (p.close_position x t r).symbol = p.symbol := rfl

theorem Position.symbol_update_price (p : Position) (a b : ℚ) :
    (p.update_price a b).symbol = p.symbol := by
  unfold Position.update_price
  by_cases h : p.is_closed = true
  · rw [if_pos h]
  · rw [if_neg h]
    dsimp only
    split_ifs with h2
    · rw [Position.symbol_close_position, Position.symbol_track_excursions]
    · exact Position.symbol_track_excursions p a

theorem portfolio_inv_add_signal (pf : Portfolio) (s : TradingSignal) (price : ℚ)
    (h : PortfolioInv pf) : PortfolioInv (pf.add_signal s price).1 := by
  obtain ⟨hopen, hnd⟩ := h
  unfold Portfolio.add_signal
  by_cases hh : s.signal_type = SignalType.HOLD
  · rw [if_pos hh]; exact ⟨hopen, hnd⟩
  · rw [if_neg hh]
    cases hfind : pf.get_open_position s.asset with
    | none =>
      dsimp only
      have hno : ∀ p ∈ pf.positions, p.symbol ≠ s.asset := by
        intro p hp hsym
        have hnp := List.find?_eq_none.mp hfind p hp
        apply hnp
        simp [hsym, hopen p hp]
      by_cases hg : pf.current_capital * s.position_size > pf.current_capital * (95/100)
      · rw [if_pos hg]; exact ⟨hopen, hnd⟩
      · rw [if_neg hg]
        refine ⟨?_, ?_⟩
        · intro p hp
          rcases List.mem_append.mp hp with h1 | h1
          · exact hopen p h1
          · rw [List.mem_singleton.mp h1]; rfl
        · rw [List.map_append, List.nodup_append]
          refine ⟨hnd, List.nodup_singleton _, ?_⟩
          intro a ha hb
          obtain ⟨p, hp, rfl⟩ := List.mem_map.mp ha
          simp only [List.map_cons, List.map_nil, List.mem_singleton] at hb
          exact hno p hp hb
    | some ex =>
      dsimp only
      have hpred := List.find?_some hfind
      have hmem := List.mem_of_find?_eq_some hfind
      have hsym : ex.symbol = s.asset := by
        simp only [Bool.and_eq_true, beq_iff_eq] at hpred
        exact hpred.1
      have hlnd : pf.positions.Nodup := List.Nodup.of_map _ hnd
      have herase_sub : List.Sublist (pf.positions.erase ex) pf.positions :=
        List.erase_sublist ex pf.positions
      have hopen2 : ∀ p ∈ pf.positions.erase ex, p.is_closed = false :=
        fun p hp => hopen p (herase_sub.subset hp)
      have hnd2 : ((pf.positions.erase ex).map (fun p => p.symbol)).Nodup :=
        List.Nodup.sublist (herase_sub.map _) hnd
      have hno : ∀ p ∈ pf.positions.erase ex, p.symbol ≠ s.asset := by
        intro p hp hps
        have hmem2 := hlnd.mem_erase_iff.mp hp
        have heq : p = ex :=
          List.inj_on_of_nodup_map hnd hmem2.2 hmem (by rw [hps, hsym])
        exact hmem2.1 heq
      split_ifs with hg
      · exact ⟨hopen2, hnd2⟩
      · refine ⟨?_, ?_⟩
        · intro p hp
          rcases List.mem_append.mp hp with h1 | h1
          · exact hopen2 p h1
          · rw [List.mem_singleton.mp h1]; rfl
        · rw [List.map_append, List.nodup_append]
          refine ⟨hnd2, List.nodup_singleton _, ?_⟩
          intro a ha hb
          obtain ⟨p, hp, rfl⟩ := List.mem_map.mp ha
          simp only [List.map_cons, List.map_nil, List.mem_singleton] at hb
          exact hno p hp hb

theorem portfolio_inv_update_loop (md : List MarketData) (l : List Position) :
    ∀ pf : Portfolio,
      (∀ p ∈ pf.positions, p.is_closed = false) →
      (∀ p ∈ l, p.is_closed = false) →
      ((pf.positions ++ l).map (fun p => p.symbol)).Nodup →
      PortfolioInv (Portfolio.update_positions_loop md pf l) := by
  induction l with
  | nil =>
    intro pf h1 h2 h3
    exact ⟨h1, by simpa using h3⟩
  | cons p rest ih =>
    intro pf h1 h2 h3
    simp only [Portfolio.update_positions_loop]
    cases hf : md.find? (fun d => d.symbol == p.symbol) with
    | none =>
      apply ih
      · intro q hq
        rcases List.mem_append.mp hq with hq | hq
        · exact h1 q hq
        · rw [List.mem_singleton.mp hq]; exact h2 p (List.mem_cons_self p rest)
      · intro q hq; exact h2 q (List.mem_cons_of_mem p hq)
      · have heq : (pf.positions ++ [p]) ++ rest = pf.positions ++ p :: rest := by simp
        rw [heq]; exact h3
    | some d =>
      dsimp only
      by_cases hc : (p.update_price d.price d.timestamp).is_closed = true
      · rw [if_pos hc]
        apply ih
        · intro q hq; exact h1 q hq
        · intro q hq; exact h2 q (List.mem_cons_of_mem p hq)
        · have hsub : List.Sublist (pf.positions ++ rest) (pf.positions ++ p :: rest) :=
            List.Sublist.append_left (List.sublist_cons_self p rest) pf.positions
          exact List.Nodup.sublist (hsub.map _) h3
      · rw [if_neg hc]
        apply ih
        · intro q hq
          rcases List.mem_append.mp hq with hq | hq
          · exact h1 q hq
          · rw [List.mem_singleton.mp hq]
            exact Bool.not_eq_true _ ▸ hc
        · intro q hq; exact h2 q (List.mem_cons_of_mem p hq)
        · have hmap : ((pf.positions ++ [p.update_price d.price d.timestamp]) ++ rest).map
              (fun q => q.symbol) = (pf.positions ++ p :: rest).map (fun q => q.symbol) := by
            simp [Position.symbol_update_price]
          rw [hmap]; exact h3

theorem portfolio_inv_update_positions (pf : Portfolio) (md : List MarketData) (now : ℚ)
    (h : PortfolioInv pf) : PortfolioInv (pf.update_positions md now) := by
  obtain ⟨hopen, hnd⟩ := h
  unfold Portfolio.update_positions
  dsimp only
  have hloop := portfolio_inv_update_loop md pf.positions { pf with positions := [] }
    (fun q hq => absurd hq (List.not_mem_nil q)) hopen (by simpa using hnd)
  split_ifs with hgt
  · exact ⟨hloop.1, hloop.2⟩
  · exact ⟨hloop.1, hloop.2⟩

theorem portfolio_inv_reachable (pf : Portfolio) (h : ReachablePortfolio pf) :
    PortfolioInv pf := by
  induction h with
  | init cap =>
    exact ⟨fun q hq => absurd hq (List.not_mem_nil q), by simp [Portfolio.init]⟩
  | add_signal pf s price _ ih => exact portfolio_inv_add_signal pf s price ih
  | update pf md now _ ih => exact portfolio_inv_update_positions pf md now ih

/-- C6: in every portfolio state reachable by any sequence of submitted
signals and market updates, no two simultaneously open positions share an
asset: a newly accepted signal always closes the previous open position on
its asset before the new one is opened. -/
theorem c6_one_open_position_per_asset (pf : Portfolio) (h : ReachablePortfolio pf) :
    pf.positions.Pairwise
      (fun p q => p.is_closed = false → q.is_closed = false → p.symbol ≠ q.symbol) := by
  obtain ⟨-, hnd⟩ := portfolio_inv_reachable pf h
  have hpw : pf.positions.Pairwise (fun p q => p.symbol ≠ q.symbol) :=
    List.pairwise_map.mp hnd
  exact hpw.imp (fun hne => fun _ _ => hne)

theorem c6_witness :
    ((((Portfolio.init 100).add_signal c1_open_signal 100).1.add_signal
        c6_signal_eth 200).1).positions.Pairwise
      (fun p q => p.is_closed = false → q.is_closed = false → p.symbol ≠ q.symbol) :=
  c6_one_open_position_per_asset _
    (ReachablePortfolio.add_signal _ c6_signal_eth 200
      (ReachablePortfolio.add_signal _ c1_open_signal 100
        (ReachablePortfolio.init 100)))
